import Mathlib

/-!
# vk_mini_path_tracer: the resource-setup routine `main`

A shallow embedding of `main.cpp`.  The program is a straight-line sequence of
calls into the Vulkan API and the nvvk helper layer.  The embedding runs
`main` against an environment `Env` that fixes what every external call
answers, and yields the list of calls made (`Run.trace`) together with the way
the process ended (`Run.exit`).
-/

namespace VkMiniPathTracer

/-! ## Machine arithmetic -/

/-- Multiplication of two `uint64_t` values: the product is reduced modulo `2 ^ 64`. -/
def mulU64 (a b : Nat) : Nat := (a * b) % 2 ^ 64

/-- Source constant `static const uint64_t render_width = 800;`. -/
def render_width : Nat := 800

/-- Source constant `static const uint64_t render_height = 600;`. -/
def render_height : Nat := 600

/-- Value of `sizeof(float)`: a `float` is an IEEE-754 binary32 value of four bytes. -/
def sizeofFloat : Nat := 4

/-- Local `bufferSizeBytes` of `main`:
`render_width * render_height * 3 * sizeof(float)`, evaluated left to right in
64-bit unsigned arithmetic. -/
def bufferSizeBytes : Nat :=
  mulU64 (mulU64 (mulU64 render_width render_height) 3) sizeofFloat

/-! ## IEEE-754 binary32 bit patterns -/

/-- Quotient `n / d` rounded to the nearest integer, ties to even. -/
def roundNearestEven (n d : Nat) : Nat :=
  let q := n / d
  let r := n % d
  if 2 * r < d then q
  else if d < 2 * r then q + 1
  else if q % 2 = 0 then q else q + 1

/-- Number of halvings, at most `fuel`, that bring `n` below two: the floor of
the binary logarithm of `n`, capped at `fuel`. -/
def floorLog2 : Nat → Nat → Nat → Nat
  | 0, _, acc => acc
  | fuel + 1, n, acc => if n < 2 then acc else floorLog2 fuel (n / 2) (acc + 1)

/-- Bit pattern of the binary32 value nearest to the non-negative ratio
`num / den` (round to nearest, ties to even; `den` is positive).  This is the
word a `float` literal of that value occupies in memory. -/
def binary32Bits (num den : Nat) : Nat :=
  let scaled := num * 2 ^ 127
  -- biased exponent; a cap of 256 already lies in the overflow range
  let e := floorLog2 256 (scaled / den) 0
  if e = 0 then
    -- below the smallest normal value: exponent field 0, fraction in units of 2^-149
    roundNearestEven (num * 2 ^ 149) den
  else
    -- biased exponent e, significand with the leading one bit included
    let bits := (e - 1) * 2 ^ 23 + roundNearestEven (scaled * 2 ^ 23) (den * 2 ^ e)
    if bits < 0x7F800000 then bits else 0x7F800000

/-- Rational value denoted by a binary32 word whose exponent field is not all ones. -/
def binary32Value (w : Nat) : ℚ :=
  let sign : ℚ := if w / 2 ^ 31 % 2 = 1 then -1 else 1
  let e : Nat := w / 2 ^ 23 % 256
  let f : Nat := w % 2 ^ 23
  let significand : Nat := 2 ^ 23 + f
  if e = 0 then sign * (f : ℚ) / (2 : ℚ) ^ 149
  else if 150 ≤ e then sign * (significand : ℚ) * (2 : ℚ) ^ (e - 150)
  else sign * (significand : ℚ) / (2 : ℚ) ^ (150 - e)

/-- Local `fillValueU32` of `main`: the 32-bit word read through
`reinterpret_cast<const uint32_t&>` from `const float fillValue = 0.5f`, the
literal `0.5` being the ratio `5 / 10`. -/
def fillValueU32 : Nat := binary32Bits 5 10

/-! ## Vulkan constants and structures -/

/-- Result code of a Vulkan call (`VkResult`, a signed 32-bit enumeration). -/
abbrev VkResult := Int

/-- Opaque object handle handed out by the driver. -/
abbrev Handle := Nat

/-- Success code `VK_SUCCESS`. -/
def VK_SUCCESS : VkResult := 0

/-- Boolean constant `VK_TRUE` of type `VkBool32`. -/
def VK_TRUE : Nat := 1

/-- Usage bit `VK_BUFFER_USAGE_TRANSFER_DST_BIT` (`eTransferDst`). -/
def VK_BUFFER_USAGE_TRANSFER_DST_BIT : Nat := 0x00000002

/-- Usage bit `VK_BUFFER_USAGE_STORAGE_BUFFER_BIT` (`eStorageBuffer`). -/
def VK_BUFFER_USAGE_STORAGE_BUFFER_BIT : Nat := 0x00000020

/-- Memory property bit `VK_MEMORY_PROPERTY_HOST_VISIBLE_BIT` (`eHostVisible`). -/
def VK_MEMORY_PROPERTY_HOST_VISIBLE_BIT : Nat := 0x00000002

/-- Memory property bit `VK_MEMORY_PROPERTY_HOST_COHERENT_BIT` (`eHostCoherent`). -/
def VK_MEMORY_PROPERTY_HOST_COHERENT_BIT : Nat := 0x00000004

/-- Memory property bit `VK_MEMORY_PROPERTY_HOST_CACHED_BIT` (`eHostCached`). -/
def VK_MEMORY_PROPERTY_HOST_CACHED_BIT : Nat := 0x00000008

/-- Command buffer usage bit `VK_COMMAND_BUFFER_USAGE_ONE_TIME_SUBMIT_BIT`. -/
def VK_COMMAND_BUFFER_USAGE_ONE_TIME_SUBMIT_BIT : Nat := 0x00000001

/-- Command buffer level `VK_COMMAND_BUFFER_LEVEL_PRIMARY`. -/
def VK_COMMAND_BUFFER_LEVEL_PRIMARY : Nat := 0

/-- Device extensions named by `main`. -/
inductive DeviceExtension where
  | deferredHostOperations
  | accelerationStructure
  | rayQuery
  deriving DecidableEq, Repr

/-- Feature structures of `main` whose address is handed to the context configuration. -/
inductive FeatureStruct where
  | asFeatures
  | rayQueryFeatures
  deriving DecidableEq, Repr

/-- One `addDeviceExtension(name, optional, pFeatureStruct)` request. -/
structure ExtensionEntry where
  name : DeviceExtension
  optional : Bool
  featureStruct : Option FeatureStruct
  deriving DecidableEq, Repr

/-- Device configuration `nvvk::ContextCreateInfo`, as far as `main` writes it:
the device extension requests in the order they were added. -/
structure ContextCreateInfo where
  deviceExtensions : List ExtensionEntry
  deriving DecidableEq, Repr

/-- Method `ContextCreateInfo::addDeviceExtension`; the arguments `optional`
and `pFeatureStruct` default to `false` and `nullptr`. -/
def ContextCreateInfo.addDeviceExtension (info : ContextCreateInfo) (name : DeviceExtension)
    (optional : Bool) (featureStruct : Option FeatureStruct) : ContextCreateInfo :=
  ⟨info.deviceExtensions ++ [⟨name, optional, featureStruct⟩]⟩

/-- Structure `vk::BufferCreateInfo`; the constructor takes `flags`, `size` and
`usage`, the sharing mode and the queue family list keep their defaults. -/
structure BufferCreateInfo where
  flags : Nat
  size : Nat
  usage : Nat
  sharingMode : Nat
  queueFamilyIndexCount : Nat
  deriving DecidableEq, Repr

/-- Structure `VkCommandPoolCreateInfo`, zeroed by `nvvk::make`. -/
structure VkCommandPoolCreateInfo where
  flags : Nat
  queueFamilyIndex : Nat
  deriving DecidableEq, Repr

/-- Structure `VkCommandBufferAllocateInfo`, zeroed by `nvvk::make`. -/
structure VkCommandBufferAllocateInfo where
  commandPool : Handle
  level : Nat
  commandBufferCount : Nat
  deriving DecidableEq, Repr

/-- Structure `VkCommandBufferBeginInfo`, zeroed by `nvvk::make`. -/
structure VkCommandBufferBeginInfo where
  flags : Nat
  hasInheritanceInfo : Bool
  deriving DecidableEq, Repr

/-! ## Calls, environment and runs -/

/-- One call made by the program into the Vulkan API or the nvvk helper layer,
with the arguments passed and the answer received.  The last six constructors
are calls of the API that `main` never makes. -/
inductive Event where
  | contextInit (info : ContextCreateInfo) (status : Bool)
  | allocatorInit
  | createBuffer (info : BufferCreateInfo) (memProps : Nat) (result : VkResult) (buffer : Handle)
  | createCommandPool (info : VkCommandPoolCreateInfo) (result : VkResult) (cmdPool : Handle)
  | allocateCommandBuffers (info : VkCommandBufferAllocateInfo) (result : VkResult)
      (cmdBuffer : Handle)
  | beginCommandBuffer (cmdBuffer : Handle) (info : VkCommandBufferBeginInfo) (result : VkResult)
  | cmdFillBuffer (cmdBuffer : Handle) (dstBuffer : Handle) (dstOffset size data : Nat)
  | allocatorDestroy (buffer : Handle)
  | allocatorDeinit
  | contextDeinit
  | endCommandBuffer (cmdBuffer : Handle)
  | queueSubmit (cmdBuffer : Handle)
  | waitIdle
  | mapMemory (buffer : Handle)
  | freeCommandBuffers (cmdPool : Handle) (cmdBuffer : Handle)
  | destroyCommandPool (cmdPool : Handle)
  deriving DecidableEq, Repr

/-- Kind of a call, its arguments dropped. -/
inductive Kind where
  | contextInit | allocatorInit | createBuffer | createCommandPool | allocateCommandBuffers
  | beginCommandBuffer | cmdFillBuffer | allocatorDestroy | allocatorDeinit | contextDeinit
  | endCommandBuffer | queueSubmit | waitIdle | mapMemory | freeCommandBuffers
  | destroyCommandPool
  deriving DecidableEq, Repr

/-- Kind of the call an event records. -/
def Event.kind : Event → Kind
  | .contextInit _ _ => .contextInit
  | .allocatorInit => .allocatorInit
  | .createBuffer _ _ _ _ => .createBuffer
  | .createCommandPool _ _ _ => .createCommandPool
  | .allocateCommandBuffers _ _ _ => .allocateCommandBuffers
  | .beginCommandBuffer _ _ _ => .beginCommandBuffer
  | .cmdFillBuffer _ _ _ _ _ => .cmdFillBuffer
  | .allocatorDestroy _ => .allocatorDestroy
  | .allocatorDeinit => .allocatorDeinit
  | .contextDeinit => .contextDeinit
  | .endCommandBuffer _ => .endCommandBuffer
  | .queueSubmit _ => .queueSubmit
  | .waitIdle => .waitIdle
  | .mapMemory _ => .mapMemory
  | .freeCommandBuffers _ _ => .freeCommandBuffers
  | .destroyCommandPool _ => .destroyCommandPool

/-- Answers of the outside world to the calls of one run. -/
structure Env where
  /-- Status returned by `context.init(deviceInfo)`: `true` when the context was
  created.  The method is declared in the nvvk header, outside this repository. -/
  contextInit : Bool
  /-- Field `asFeatures.accelerationStructure` (a `VkBool32`) after `context.init`. -/
  accelerationStructure : Nat
  /-- Field `rayQueryFeatures.rayQuery` (a `VkBool32`) after `context.init`. -/
  rayQuery : Nat
  /-- Field `context.m_queueGCT`. -/
  queueGCT : Nat
  /-- Status of the buffer allocation inside `allocator.createBuffer`. -/
  createBufferResult : VkResult
  /-- Buffer handle `buffer.buffer` handed back by `allocator.createBuffer`. -/
  buffer : Handle
  /-- Status returned by `vkCreateCommandPool`. -/
  createCommandPoolResult : VkResult
  /-- Handle written to `cmdPool`. -/
  cmdPool : Handle
  /-- Status returned by `vkAllocateCommandBuffers`. -/
  allocateCommandBuffersResult : VkResult
  /-- Handle written to `cmdBuffer`. -/
  cmdBuffer : Handle
  /-- Status returned by `vkBeginCommandBuffer`. -/
  beginCommandBufferResult : VkResult
  deriving DecidableEq, Repr

/-- Way the process ends: `main` returns (falling off its end yields 0), or the
process is aborted. -/
inductive Exit where
  | returned (code : Nat)
  | aborted
  deriving DecidableEq, Repr

/-- Observable behaviour of one run: the calls made, in order, and the way it ended. -/
structure Run where
  trace : List Event
  exit : Exit
  deriving DecidableEq, Repr

/-- Modelled from the spec: the nvvk macro `NVVK_CHECK`, whose definition is in
the helper library and not in this repository.  The spec calls it the
check-and-abort macro: any status other than success terminates the process.
The value is `true` when the process goes on. -/
def NVVK_CHECK (result : VkResult) : Bool := result == VK_SUCCESS

/-- Modelled from the spec: failure inside `allocator.createBuffer`, whose body
is in the helper library.  The call hands back a buffer and no status; the spec
says an allocation failure is fatal, an abort through the check-and-abort
pattern.  The value is `true` when the call returns to `main`. -/
def createBufferReturns (result : VkResult) : Bool := NVVK_CHECK result

/-- Device configuration built at the start of `main` by three
`addDeviceExtension` calls on a default `nvvk::ContextCreateInfo`. -/
def deviceInfo : ContextCreateInfo :=
  (((ContextCreateInfo.mk []).addDeviceExtension .deferredHostOperations false none
    ).addDeviceExtension .accelerationStructure false (some .asFeatures)
    ).addDeviceExtension .rayQuery false (some .rayQueryFeatures)

/-- Local `bufferCreateInfo` of `main`:
`vk::BufferCreateInfo({}, bufferSizeBytes, eStorageBuffer | eTransferDst)`. -/
def bufferCreateInfo : BufferCreateInfo :=
  { flags := 0
    size := bufferSizeBytes
    usage := VK_BUFFER_USAGE_STORAGE_BUFFER_BIT ||| VK_BUFFER_USAGE_TRANSFER_DST_BIT
    sharingMode := 0
    queueFamilyIndexCount := 0 }

/-- Memory properties passed to `allocator.createBuffer`:
`eHostVisible | eHostCached | eHostCoherent`. -/
def bufferMemoryProperties : Nat :=
  VK_MEMORY_PROPERTY_HOST_VISIBLE_BIT ||| VK_MEMORY_PROPERTY_HOST_CACHED_BIT |||
    VK_MEMORY_PROPERTY_HOST_COHERENT_BIT

/-- Function `main` of `main.cpp`, run against the answers `env`.  The
translation unit defines no `NDEBUG`, so `assert` aborts the process when its
condition is false. -/
def main (env : Env) : Run :=
  -- nvvk::Context context; context.init(deviceInfo);  (the returned status is not read)
  let t := [Event.contextInit deviceInfo env.contextInit]
  -- assert(asFeatures.accelerationStructure == VK_TRUE && rayQueryFeatures.rayQuery == VK_TRUE);
  if !(env.accelerationStructure == VK_TRUE && env.rayQuery == VK_TRUE) then ⟨t, .aborted⟩ else
  -- allocator.init(context, context.m_physicalDevice);
  let t := t ++ [Event.allocatorInit]
  -- nvvk::Buffer buffer = allocator.createBuffer(bufferCreateInfo, ...);
  let t := t ++ [Event.createBuffer bufferCreateInfo bufferMemoryProperties
    env.createBufferResult env.buffer]
  if !createBufferReturns env.createBufferResult then ⟨t, .aborted⟩ else
  let buffer := env.buffer
  -- cmdPoolInfo.queueFamilyIndex = context.m_queueGCT;
  let cmdPoolInfo : VkCommandPoolCreateInfo := { flags := 0, queueFamilyIndex := env.queueGCT }
  -- NVVK_CHECK(vkCreateCommandPool(context, &cmdPoolInfo, nullptr, &cmdPool));
  let t := t ++ [Event.createCommandPool cmdPoolInfo env.createCommandPoolResult env.cmdPool]
  if !NVVK_CHECK env.createCommandPoolResult then ⟨t, .aborted⟩ else
  let cmdPool := env.cmdPool
  let cmdAllocInfo : VkCommandBufferAllocateInfo :=
    { commandPool := cmdPool, level := VK_COMMAND_BUFFER_LEVEL_PRIMARY, commandBufferCount := 1 }
  -- NVVK_CHECK(vkAllocateCommandBuffers(context, &cmdAllocInfo, &cmdBuffer));
  let t := t ++ [Event.allocateCommandBuffers cmdAllocInfo env.allocateCommandBuffersResult
    env.cmdBuffer]
  if !NVVK_CHECK env.allocateCommandBuffersResult then ⟨t, .aborted⟩ else
  let cmdBuffer := env.cmdBuffer
  let beginInfo : VkCommandBufferBeginInfo :=
    { flags := VK_COMMAND_BUFFER_USAGE_ONE_TIME_SUBMIT_BIT, hasInheritanceInfo := false }
  -- NVVK_CHECK(vkBeginCommandBuffer(cmdBuffer, &beginInfo));
  let t := t ++ [Event.beginCommandBuffer cmdBuffer beginInfo env.beginCommandBufferResult]
  if !NVVK_CHECK env.beginCommandBufferResult then ⟨t, .aborted⟩ else
  -- vkCmdFillBuffer(cmdBuffer, buffer.buffer, 0, bufferSizeBytes, fillValueU32);
  let t := t ++ [Event.cmdFillBuffer cmdBuffer buffer 0 bufferSizeBytes fillValueU32]
  -- allocator.destroy(buffer); allocator.deinit(); context.deinit();
  let t := t ++ [Event.allocatorDestroy buffer]
  let t := t ++ [Event.allocatorDeinit]
  let t := t ++ [Event.contextDeinit]
  ⟨t, .returned 0⟩

/-- Environment in which every call succeeds, with sample handles. -/
def okEnv : Env :=
  { contextInit := true, accelerationStructure := 1, rayQuery := 1, queueGCT := 0
    createBufferResult := 0, buffer := 11
    createCommandPoolResult := 0, cmdPool := 22
    allocateCommandBuffersResult := 0, cmdBuffer := 33
    beginCommandBufferResult := 0 }

/-- Environment of a device that does not report the ray-query feature. -/
def noRayQueryEnv : Env := { okEnv with rayQuery := 0 }

/-- Environment in which `context.init` reports failure after the feature
query has filled both feature structures, every later call succeeding. -/
def initFailedEnv : Env := { okEnv with contextInit := false }

/-- Run in which every step succeeds. -/
def Env.allSucceed (env : Env) : Prop :=
  env.contextInit = true ∧ env.accelerationStructure = VK_TRUE ∧ env.rayQuery = VK_TRUE ∧
  env.createBufferResult = VK_SUCCESS ∧ env.createCommandPoolResult = VK_SUCCESS ∧
  env.allocateCommandBuffersResult = VK_SUCCESS ∧ env.beginCommandBufferResult = VK_SUCCESS

instance (env : Env) : Decidable env.allSucceed := by
  unfold Env.allSucceed; infer_instance

/-- Condition under which a run gets past every check of `main`: the two
feature flags are set and the four checked calls report success. -/
def Env.passes (env : Env) : Prop :=
  env.accelerationStructure = VK_TRUE ∧ env.rayQuery = VK_TRUE ∧
  env.createBufferResult = VK_SUCCESS ∧ env.createCommandPoolResult = VK_SUCCESS ∧
  env.allocateCommandBuffersResult = VK_SUCCESS ∧ env.beginCommandBufferResult = VK_SUCCESS

instance (env : Env) : Decidable env.passes := by
  unfold Env.passes; infer_instance

/-- The ten calls of `main` in program order, with the answers of `env`.  Every
run makes an initial segment of them (`main_cases`). -/
def script (env : Env) : List Event :=
  [ Event.contextInit deviceInfo env.contextInit,
    Event.allocatorInit,
    Event.createBuffer bufferCreateInfo bufferMemoryProperties env.createBufferResult env.buffer,
    Event.createCommandPool { flags := 0, queueFamilyIndex := env.queueGCT }
      env.createCommandPoolResult env.cmdPool,
    Event.allocateCommandBuffers
      { commandPool := env.cmdPool, level := VK_COMMAND_BUFFER_LEVEL_PRIMARY,
        commandBufferCount := 1 }
      env.allocateCommandBuffersResult env.cmdBuffer,
    Event.beginCommandBuffer env.cmdBuffer
      { flags := VK_COMMAND_BUFFER_USAGE_ONE_TIME_SUBMIT_BIT, hasInheritanceInfo := false }
      env.beginCommandBufferResult,
    Event.cmdFillBuffer env.cmdBuffer env.buffer 0 bufferSizeBytes fillValueU32,
    Event.allocatorDestroy env.buffer,
    Event.allocatorDeinit,
    Event.contextDeinit ]

/-! ## Handle discipline -/

/-- Object that is live between its creation and its release.  A command
buffer is recorded with the pool it was allocated from. -/
inductive Resource where
  | context
  | allocator
  | buffer (h : Handle)
  | cmdPool (h : Handle)
  | cmdBuffer (pool : Handle) (h : Handle)
  deriving DecidableEq, Repr

/-- Test for the device context. -/
def Resource.isContext : Resource → Bool
  | .context => true
  | _ => false

/-- Test for the allocator. -/
def Resource.isAllocator : Resource → Bool
  | .allocator => true
  | _ => false

/-- Test for the buffer with handle `b`. -/
def Resource.isBuffer (b : Handle) : Resource → Bool
  | .buffer h => decide (h = b)
  | _ => false

/-- Test for the command pool with handle `p`. -/
def Resource.isCmdPool (p : Handle) : Resource → Bool
  | .cmdPool h => decide (h = p)
  | _ => false

/-- Test for the command buffer with handle `c`. -/
def Resource.isCmdBuffer (c : Handle) : Resource → Bool
  | .cmdBuffer _ h => decide (h = c)
  | _ => false

/-- Test for a command buffer allocated from the pool `p`. -/
def Resource.isCmdBufferOf (p : Handle) : Resource → Bool
  | .cmdBuffer pool _ => decide (pool = p)
  | _ => false

/-- Objects a call operates on: each test must be met by a live object.  The
allocator works on the device of the context it was initialised with. -/
def Event.needs : Event → List (Resource → Bool)
  | .contextInit _ _ => []
  | .allocatorInit => [Resource.isContext]
  | .createBuffer _ _ _ _ => [Resource.isAllocator, Resource.isContext]
  | .createCommandPool _ _ _ => [Resource.isContext]
  | .allocateCommandBuffers info _ _ => [Resource.isContext, Resource.isCmdPool info.commandPool]
  | .beginCommandBuffer c _ _ => [Resource.isCmdBuffer c]
  | .cmdFillBuffer c b _ _ _ => [Resource.isCmdBuffer c, Resource.isBuffer b]
  | .allocatorDestroy b => [Resource.isAllocator, Resource.isContext, Resource.isBuffer b]
  | .allocatorDeinit => [Resource.isAllocator, Resource.isContext]
  | .contextDeinit => [Resource.isContext]
  | .endCommandBuffer c => [Resource.isCmdBuffer c]
  | .queueSubmit c => [Resource.isContext, Resource.isCmdBuffer c]
  | .waitIdle => [Resource.isContext]
  | .mapMemory b => [Resource.isAllocator, Resource.isContext, Resource.isBuffer b]
  | .freeCommandBuffers p c => [Resource.isContext, Resource.isCmdPool p, Resource.isCmdBuffer c]
  | .destroyCommandPool p => [Resource.isContext, Resource.isCmdPool p]

/-- Objects a call brings to life; a call that fails creates nothing. -/
def Event.creates : Event → List Resource
  | .contextInit _ status => if status then [.context] else []
  | .allocatorInit => [.allocator]
  | .createBuffer _ _ result b => if result = VK_SUCCESS then [.buffer b] else []
  | .createCommandPool _ result p => if result = VK_SUCCESS then [.cmdPool p] else []
  | .allocateCommandBuffers info result c =>
      if result = VK_SUCCESS then [.cmdBuffer info.commandPool c] else []
  | _ => []

/-- Objects a call releases.  Destroying a command pool frees the command
buffers allocated from it. -/
def Event.releases : Event → Resource → Bool
  | .allocatorDestroy b => Resource.isBuffer b
  | .allocatorDeinit => Resource.isAllocator
  | .contextDeinit => Resource.isContext
  | .freeCommandBuffers _ c => Resource.isCmdBuffer c
  | .destroyCommandPool p => fun r => Resource.isCmdPool p r || Resource.isCmdBufferOf p r
  | _ => fun _ => false

/-- One call applied to the live objects: `none` when the call operates on an
object that is not live. -/
def step (live : List Resource) (e : Event) : Option (List Resource) :=
  if e.needs.all (fun test => live.any test) then
    some (live.filter (fun r => !e.releases r) ++ e.creates)
  else none

/-- Live objects after a sequence of calls, `none` when some call operates on
an object that is not live at that moment. -/
def replay (live : List Resource) : List Event → Option (List Resource)
  | [] => some live
  | e :: es =>
    match step live e with
    | none => none
    | some next => replay next es

set_option maxRecDepth 4096

/-! ## Auxiliary facts -/

/-- Value of the buffer size. -/
theorem bufferSizeBytes_val : bufferSizeBytes = 5760000 := by decide

/-- Value of the fill word. -/
theorem fillValueU32_val : fillValueU32 = 0x3F000000 := by decide

/-- Rational value denoted by the word `0x3F000000`. -/
theorem binary32Value_half : binary32Value 0x3F000000 = 1 / 2 := by
  norm_num [binary32Value]

/-- Run in which a feature flag is not `VK_TRUE`: it stops at the assertion. -/
theorem main_of_flags_off (env : Env)
    (h : env.accelerationStructure ≠ VK_TRUE ∨ env.rayQuery ≠ VK_TRUE) :
    main env = ⟨(script env).take 1, .aborted⟩ := by
  unfold main script
  rcases h with h | h <;> simp [h]

/-- Run in which the buffer allocation fails: it stops inside `createBuffer`. -/
theorem main_of_createBuffer_fail (env : Env)
    (h1 : env.accelerationStructure = VK_TRUE) (h2 : env.rayQuery = VK_TRUE)
    (h3 : env.createBufferResult ≠ VK_SUCCESS) :
    main env = ⟨(script env).take 3, .aborted⟩ := by
  unfold main script
  simp [h1, h2, h3, createBufferReturns, NVVK_CHECK]

/-- Run in which the command pool creation fails: it stops at that check. -/
theorem main_of_createCommandPool_fail (env : Env)
    (h1 : env.accelerationStructure = VK_TRUE) (h2 : env.rayQuery = VK_TRUE)
    (h3 : env.createBufferResult = VK_SUCCESS) (h4 : env.createCommandPoolResult ≠ VK_SUCCESS) :
    main env = ⟨(script env).take 4, .aborted⟩ := by
  unfold main script
  simp [h1, h2, h3, h4, createBufferReturns, NVVK_CHECK]

/-- Run in which the command buffer allocation fails: it stops at that check. -/
theorem main_of_allocateCommandBuffers_fail (env : Env)
    (h1 : env.accelerationStructure = VK_TRUE) (h2 : env.rayQuery = VK_TRUE)
    (h3 : env.createBufferResult = VK_SUCCESS) (h4 : env.createCommandPoolResult = VK_SUCCESS)
    (h5 : env.allocateCommandBuffersResult ≠ VK_SUCCESS) :
    main env = ⟨(script env).take 5, .aborted⟩ := by
  unfold main script
  simp [h1, h2, h3, h4, h5, createBufferReturns, NVVK_CHECK]

/-- Run in which begin-recording fails: it stops at that check. -/
theorem main_of_beginCommandBuffer_fail (env : Env)
    (h1 : env.accelerationStructure = VK_TRUE) (h2 : env.rayQuery = VK_TRUE)
    (h3 : env.createBufferResult = VK_SUCCESS) (h4 : env.createCommandPoolResult = VK_SUCCESS)
    (h5 : env.allocateCommandBuffersResult = VK_SUCCESS)
    (h6 : env.beginCommandBufferResult ≠ VK_SUCCESS) :
    main env = ⟨(script env).take 6, .aborted⟩ := by
  unfold main script
  simp [h1, h2, h3, h4, h5, h6, createBufferReturns, NVVK_CHECK]

/-- Run that gets past every check: all ten calls are made and `main` returns 0. -/
theorem main_of_passes (env : Env) (h : env.passes) :
    main env = ⟨script env, .returned 0⟩ := by
  obtain ⟨h1, h2, h3, h4, h5, h6⟩ := h
  unfold main script
  simp [h1, h2, h3, h4, h5, h6, createBufferReturns, NVVK_CHECK]

/-- Every run either gets past every check and makes all ten calls, or is
aborted after at most the first six of them. -/
theorem main_cases (env : Env) :
    (env.passes ∧ main env = ⟨script env, .returned 0⟩) ∨
    (¬ env.passes ∧ ∃ n, 1 ≤ n ∧ n ≤ 6 ∧ main env = ⟨(script env).take n, .aborted⟩) := by
  by_cases h1 : env.accelerationStructure = VK_TRUE
  swap
  · exact Or.inr ⟨fun h => h1 h.1, 1, by omega, by omega, main_of_flags_off env (Or.inl h1)⟩
  by_cases h2 : env.rayQuery = VK_TRUE
  swap
  · exact Or.inr ⟨fun h => h2 h.2.1, 1, by omega, by omega, main_of_flags_off env (Or.inr h2)⟩
  by_cases h3 : env.createBufferResult = VK_SUCCESS
  swap
  · exact Or.inr ⟨fun h => h3 h.2.2.1, 3, by omega, by omega,
      main_of_createBuffer_fail env h1 h2 h3⟩
  by_cases h4 : env.createCommandPoolResult = VK_SUCCESS
  swap
  · exact Or.inr ⟨fun h => h4 h.2.2.2.1, 4, by omega, by omega,
      main_of_createCommandPool_fail env h1 h2 h3 h4⟩
  by_cases h5 : env.allocateCommandBuffersResult = VK_SUCCESS
  swap
  · exact Or.inr ⟨fun h => h5 h.2.2.2.2.1, 5, by omega, by omega,
      main_of_allocateCommandBuffers_fail env h1 h2 h3 h4 h5⟩
  by_cases h6 : env.beginCommandBufferResult = VK_SUCCESS
  swap
  · exact Or.inr ⟨fun h => h6 h.2.2.2.2.2, 6, by omega, by omega,
      main_of_beginCommandBuffer_fail env h1 h2 h3 h4 h5 h6⟩
  exact Or.inl ⟨⟨h1, h2, h3, h4, h5, h6⟩, main_of_passes env ⟨h1, h2, h3, h4, h5, h6⟩⟩

/-- The calls of every run are an initial segment of the script. -/
theorem main_trace_take (env : Env) :
    ∃ n, 1 ≤ n ∧ (main env).trace = (script env).take n := by
  rcases main_cases env with ⟨_, h⟩ | ⟨_, n, h1, _, h⟩
  · exact ⟨10, by omega, by rw [h]; rfl⟩
  · exact ⟨n, h1, by rw [h]⟩

/-- Every call of a run is a call of the script. -/
theorem mem_script_of_mem_trace (env : Env) (e : Event) (h : e ∈ (main env).trace) :
    e ∈ script env := by
  obtain ⟨n, _, hn⟩ := main_trace_take env
  rw [hn] at h
  exact List.mem_of_mem_take h

/-- Bits set in the buffer usage mask `0x22`. -/
theorem usage_bits (i : Nat) :
    Nat.testBit bufferCreateInfo.usage i = true ↔
      (2 ^ i = VK_BUFFER_USAGE_STORAGE_BUFFER_BIT ∨ 2 ^ i = VK_BUFFER_USAGE_TRANSFER_DST_BIT) := by
  have hu : bufferCreateInfo.usage = 34 := by decide
  rw [hu]
  simp only [VK_BUFFER_USAGE_STORAGE_BUFFER_BIT, VK_BUFFER_USAGE_TRANSFER_DST_BIT]
  by_cases hi : i < 6
  · interval_cases i <;> simp [Nat.testBit]
  · have h64 : 2 ^ 6 ≤ 2 ^ i := Nat.pow_le_pow_right (by omega) (by omega)
    have hlt : 34 < 2 ^ i := by omega
    rw [Nat.testBit_lt_two_pow hlt]
    constructor
    · intro h; cases h
    · intro h; omega

/-- C1: the buffer size computed by main from render_width = 800 and
render_height = 600 as render_width * render_height * 3 * sizeof(float), in
64-bit unsigned arithmetic with sizeof(float) = 4, is exactly 5,760,000 bytes,
and it is the size field of the buffer creation request: the creation requests
of a run are that one request when the feature check passes, and none when the
run stops there. -/
theorem buffer_size_is_5760000 (env : Env) :
    render_width = 800 ∧ render_height = 600 ∧ sizeofFloat = 4 ∧
    bufferSizeBytes = 5760000 ∧
    bufferCreateInfo.size = 5760000 ∧
    (main env).trace.filter (fun e => e.kind == Kind.createBuffer) =
      if env.accelerationStructure = VK_TRUE ∧ env.rayQuery = VK_TRUE then
        [Event.createBuffer bufferCreateInfo bufferMemoryProperties env.createBufferResult
          env.buffer]
      else [] := by
  refine ⟨rfl, rfl, rfl, by decide, by decide, ?_⟩
  unfold main
  split_ifs <;> simp_all [Event.kind]

/-- Bits set in the memory property mask `0xE`. -/
theorem memory_property_bits (i : Nat) :
    Nat.testBit bufferMemoryProperties i = true ↔
      (2 ^ i = VK_MEMORY_PROPERTY_HOST_VISIBLE_BIT ∨ 2 ^ i = VK_MEMORY_PROPERTY_HOST_CACHED_BIT ∨
        2 ^ i = VK_MEMORY_PROPERTY_HOST_COHERENT_BIT) := by
  have hm : bufferMemoryProperties = 14 := by decide
  rw [hm]
  simp only [VK_MEMORY_PROPERTY_HOST_VISIBLE_BIT, VK_MEMORY_PROPERTY_HOST_CACHED_BIT,
    VK_MEMORY_PROPERTY_HOST_COHERENT_BIT]
  by_cases hi : i < 4
  · interval_cases i <;> simp [Nat.testBit]
  · have h16 : 2 ^ 4 ≤ 2 ^ i := Nat.pow_le_pow_right (by omega) (by omega)
    have hlt : 14 < 2 ^ i := by omega
    rw [Nat.testBit_lt_two_pow hlt]
    constructor
    · intro h; cases h
    · intro h; omega

/-- A run whose calls include a fill command got past every check. -/
theorem passes_of_fill (env : Env)
    (h : ∃ e ∈ (main env).trace, e.kind = Kind.cmdFillBuffer) : env.passes := by
  rcases main_cases env with ⟨hp, _⟩ | ⟨_, n, h1, h6, hn⟩
  · exact hp
  · exfalso
    obtain ⟨e, he, hk⟩ := h
    rw [hn] at he
    have hmem : e.kind ∈ ((script env).take n).map Event.kind := List.mem_map_of_mem _ he
    rw [hk] at hmem
    interval_cases n <;> simp [script, Event.kind] at hmem

/-- C2: in every run that reaches the fill step, that is, in which the feature
check passes and the buffer, command pool, command buffer and begin-recording
steps succeed, main records exactly one fill-buffer command; it targets the
buffer handed back by the earlier, successful buffer creation call (whose
request has the full buffer size), starts at offset 0, has size
bufferSizeBytes, and its data word is 0x3F000000, the binary32 bit pattern of
the literal 0.5, which denotes the value one half. -/
theorem fill_command_is_unique_and_full (env : Env) (h : env.passes) :
    (main env).trace.filter (fun e => e.kind == Kind.cmdFillBuffer) =
      [Event.cmdFillBuffer env.cmdBuffer env.buffer 0 bufferSizeBytes 0x3F000000] ∧
    (∃ pre post, (main env).trace =
        pre ++ Event.cmdFillBuffer env.cmdBuffer env.buffer 0 bufferSizeBytes 0x3F000000 :: post ∧
      Event.createBuffer bufferCreateInfo bufferMemoryProperties VK_SUCCESS env.buffer ∈ pre) ∧
    bufferCreateInfo.size = bufferSizeBytes ∧
    binary32Bits 5 10 = 0x3F000000 ∧
    binary32Value 0x3F000000 = 1 / 2 := by
  have hm := main_of_passes env h
  have hf : fillValueU32 = 0x3F000000 := fillValueU32_val
  obtain ⟨_, _, h3, _, _, _⟩ := h
  refine ⟨?_, ?_, rfl, hf, binary32Value_half⟩
  · rw [hm]
    simp [script, Event.kind, hf]
  · refine ⟨(script env).take 6, (script env).drop 7, ?_, ?_⟩
    · rw [hm]
      simp [script, hf]
    · simp [script, h3]

/-- Witness of C2 at a run in which every call succeeds. -/
theorem fill_command_is_unique_and_full_witness :
    okEnv.passes ∧
    (main okEnv).trace.filter (fun e => e.kind == Kind.cmdFillBuffer) =
      [Event.cmdFillBuffer 33 11 0 5760000 0x3F000000] :=
  ⟨by decide, (fill_command_is_unique_and_full okEnv (by decide)).1⟩

/-- C3: when, after context creation, the acceleration-structure flag or the
ray-query flag is not enabled, the run consists of the context creation call
alone and the process is aborted there: no allocator, buffer, command pool or
command buffer is created and no command is recorded. -/
theorem missing_feature_aborts_after_context (env : Env)
    (h : env.accelerationStructure ≠ VK_TRUE ∨ env.rayQuery ≠ VK_TRUE) :
    main env = ⟨[Event.contextInit deviceInfo env.contextInit], Exit.aborted⟩ ∧
    ∀ e ∈ (main env).trace, e.kind = Kind.contextInit := by
  have hm : main env = ⟨[Event.contextInit deviceInfo env.contextInit], Exit.aborted⟩ := by
    rw [main_of_flags_off env h]; rfl
  refine ⟨hm, ?_⟩
  rw [hm]
  intro e he
  simp at he
  rw [he]; rfl

/-- Witness of C3 at a device without the ray-query feature. -/
theorem missing_feature_aborts_after_context_witness :
    main noRayQueryEnv = ⟨[Event.contextInit deviceInfo true], Exit.aborted⟩ :=
  (missing_feature_aborts_after_context noRayQueryEnv (Or.inr (by decide))).1

/-- C4, at the failing input: context creation reports failure while both
feature flags are set; the status is not read, so the run makes all ten calls,
the fill command and the three teardown calls included, and main returns 0. -/
theorem context_init_failure_is_ignored :
    (main initFailedEnv).trace.head? = some (Event.contextInit deviceInfo false) ∧
    (main initFailedEnv).trace.map Event.kind =
      [Kind.contextInit, Kind.allocatorInit, Kind.createBuffer, Kind.createCommandPool,
       Kind.allocateCommandBuffers, Kind.beginCommandBuffer, Kind.cmdFillBuffer,
       Kind.allocatorDestroy, Kind.allocatorDeinit, Kind.contextDeinit] ∧
    (main initFailedEnv).exit = Exit.returned 0 := by
  decide

/-- A run in which every step succeeds gets past every check. -/
theorem passes_of_allSucceed (env : Env) (h : env.allSucceed) : env.passes :=
  h.2

/-- C5: in every run in which all steps succeed the calls are, in this order,
context creation, allocator creation, buffer creation, command pool creation,
command buffer allocation, begin-recording, the fill command, buffer
destruction, allocator teardown, context teardown; each occurs exactly once,
and main returns. -/
theorem successful_run_order (env : Env) (h : env.allSucceed) :
    (main env).trace.map Event.kind =
      [Kind.contextInit, Kind.allocatorInit, Kind.createBuffer, Kind.createCommandPool,
       Kind.allocateCommandBuffers, Kind.beginCommandBuffer, Kind.cmdFillBuffer,
       Kind.allocatorDestroy, Kind.allocatorDeinit, Kind.contextDeinit] ∧
    (∀ k ∈ [Kind.contextInit, Kind.allocatorInit, Kind.createBuffer, Kind.createCommandPool,
       Kind.allocateCommandBuffers, Kind.beginCommandBuffer, Kind.cmdFillBuffer,
       Kind.allocatorDestroy, Kind.allocatorDeinit, Kind.contextDeinit],
      List.count k ((main env).trace.map Event.kind) = 1) ∧
    (main env).exit = Exit.returned 0 := by
  have hm := main_of_passes env (passes_of_allSucceed env h)
  have hk : (main env).trace.map Event.kind =
      [Kind.contextInit, Kind.allocatorInit, Kind.createBuffer, Kind.createCommandPool,
       Kind.allocateCommandBuffers, Kind.beginCommandBuffer, Kind.cmdFillBuffer,
       Kind.allocatorDestroy, Kind.allocatorDeinit, Kind.contextDeinit] := by
    rw [hm]; rfl
  refine ⟨hk, ?_, by rw [hm]⟩
  rw [hk]
  decide

/-- Witness of C5 at a run in which every call succeeds. -/
theorem successful_run_order_witness : (main okEnv).exit = Exit.returned 0 :=
  (successful_run_order okEnv (by decide)).2.2

/-- Live objects just before the last call of a run that gets past every check
with a created context: the context, the command pool and the command buffer. -/
theorem live_before_context_deinit (env : Env) (h : env.allSucceed) :
    replay [] (main env).trace.dropLast =
      some [Resource.context, Resource.cmdPool env.cmdPool,
        Resource.cmdBuffer env.cmdPool env.cmdBuffer] := by
  obtain ⟨h0, hp⟩ := h
  have hm := main_of_passes env hp
  obtain ⟨_, _, h3, h4, h5, _⟩ := hp
  rw [hm]
  simp [script, replay, step, Event.needs, Event.creates, Event.releases, h0, h3, h4, h5,
    Resource.isContext, Resource.isAllocator, Resource.isBuffer, Resource.isCmdPool,
    Resource.isCmdBuffer, VK_SUCCESS]

/-- C6, at the failing input: in the run in which every call succeeds the last
call is the context teardown, and just before it the command pool and the
command buffer created from the context are still live; only the allocator and
the buffer have been released. -/
theorem command_pool_live_at_context_deinit :
    (main okEnv).exit = Exit.returned 0 ∧
    (main okEnv).trace.getLast? = some Event.contextDeinit ∧
    replay [] (main okEnv).trace.dropLast =
      some [Resource.context, Resource.cmdPool 22, Resource.cmdBuffer 22 33] ∧
    (∀ e ∈ (main okEnv).trace,
      e.kind ≠ Kind.destroyCommandPool ∧ e.kind ≠ Kind.freeCommandBuffers) := by
  decide

/-- Meaning of a successful replay: at every position of the sequence, every
object the call at that position operates on is live after the calls before it. -/
theorem replay_needs_live (pre : List Event) (e : Event) (post : List Event)
    (live final : List Resource) (h : replay live (pre ++ e :: post) = some final) :
    ∃ mid, replay live pre = some mid ∧ ∀ test ∈ e.needs, mid.any test = true := by
  induction pre generalizing live with
  | nil =>
    refine ⟨live, rfl, ?_⟩
    simp only [List.nil_append, replay] at h
    by_cases hs : e.needs.all (fun test => live.any test) = true
    · intro test ht
      exact (List.all_eq_true.mp hs) test ht
    · simp [step, hs] at h
  | cons a pre ih =>
    simp only [List.cons_append, replay] at h
    cases hstep : step live a with
    | none => simp [hstep] at h
    | some next =>
      simp only [hstep] at h
      obtain ⟨mid, hmid, hneeds⟩ := ih next h
      exact ⟨mid, by simp [replay, hstep, hmid], hneeds⟩

/-- A sequence that uses the allocator after the context teardown is rejected. -/
theorem replay_rejects_use_after_release :
    replay [] [Event.contextInit deviceInfo true, Event.allocatorInit, Event.contextDeinit,
      Event.allocatorDeinit] = none := by
  decide

/-- C7: in every successful run each call operates only on objects that have
been created and not yet released (the replay of the calls never meets a dead
object); the three releasing calls are the last three calls, so nothing takes
the buffer after its destruction, the allocator after its teardown, or the
context after its teardown, and no earlier call releases anything. -/
theorem handles_used_only_while_live (env : Env) (h : env.allSucceed) :
    replay [] (main env).trace =
      some [Resource.cmdPool env.cmdPool, Resource.cmdBuffer env.cmdPool env.cmdBuffer] ∧
    (main env).trace.drop 7 =
      [Event.allocatorDestroy env.buffer, Event.allocatorDeinit, Event.contextDeinit] ∧
    (∀ e ∈ (main env).trace.take 7, ∀ r, e.releases r = false) := by
  obtain ⟨h0, hp⟩ := h
  have hm := main_of_passes env hp
  obtain ⟨_, _, h3, h4, h5, _⟩ := hp
  rw [hm]
  refine ⟨?_, ?_, ?_⟩
  · simp [script, replay, step, Event.needs, Event.creates, Event.releases, h0, h3, h4, h5,
      Resource.isContext, Resource.isAllocator, Resource.isBuffer, Resource.isCmdPool,
      Resource.isCmdBuffer, VK_SUCCESS]
  · simp [script]
  · intro e he r
    simp [script] at he
    rcases he with he | he | he | he | he | he | he <;> rw [he] <;> rfl

/-- Witness of C7 at a run in which every call succeeds. -/
theorem handles_used_only_while_live_witness :
    replay [] (main okEnv).trace = some [Resource.cmdPool 22, Resource.cmdBuffer 22 33] :=
  (handles_used_only_while_live okEnv (by decide)).1

/-- C8 fails as stated: on a device without the ray-query feature the run is
aborted at the assertion, and recording is begun zero times, not once. -/
theorem recording_not_begun_when_aborted :
    (main noRayQueryEnv).exit = Exit.aborted ∧
    List.count Kind.beginCommandBuffer ((main noRayQueryEnv).trace.map Event.kind) = 0 := by
  decide

/-- C8, amended: the begin-recording calls of a run are exactly one call, on
the allocated command buffer and with exactly the one-time-submit usage flag,
when the feature check and the buffer, command pool and command buffer steps
succeed, and none otherwise; and no run contains an end-recording,
queue-submit, wait or buffer-readback call. -/
theorem recording_begun_at_most_once_never_executed (env : Env) :
    (main env).trace.filter (fun e => e.kind == Kind.beginCommandBuffer) =
      (if env.accelerationStructure = VK_TRUE ∧ env.rayQuery = VK_TRUE ∧
          env.createBufferResult = VK_SUCCESS ∧ env.createCommandPoolResult = VK_SUCCESS ∧
          env.allocateCommandBuffersResult = VK_SUCCESS then
        [Event.beginCommandBuffer env.cmdBuffer
          { flags := VK_COMMAND_BUFFER_USAGE_ONE_TIME_SUBMIT_BIT, hasInheritanceInfo := false }
          env.beginCommandBufferResult]
      else []) ∧
    (∀ e ∈ (main env).trace,
      e.kind ≠ Kind.endCommandBuffer ∧ e.kind ≠ Kind.queueSubmit ∧ e.kind ≠ Kind.waitIdle ∧
        e.kind ≠ Kind.mapMemory) := by
  constructor
  · unfold main
    split_ifs <;> simp_all [Event.kind, createBufferReturns, NVVK_CHECK]
  · intro e he
    have hs := mem_script_of_mem_trace env e he
    simp [script] at hs
    rcases hs with hs | hs | hs | hs | hs | hs | hs | hs | hs | hs <;> rw [hs] <;>
      simp [Event.kind]

/-- Witness of C8 (amended) at a run in which every call succeeds. -/
theorem recording_begun_at_most_once_never_executed_witness :
    (main okEnv).trace.filter (fun e => e.kind == Kind.beginCommandBuffer) =
      [Event.beginCommandBuffer 33 { flags := 1, hasInheritanceInfo := false } 0] :=
  (recording_begun_at_most_once_never_executed okEnv).1.trans (by decide)

/-- C9: the buffer creation requests of a run are a single request when the
feature check passes and none otherwise; that request has no creation flags,
usage mask storage-buffer | transfer-destination, in which exactly those two
bits are set, and memory property mask host-visible | host-cached |
host-coherent, in which exactly those three bits are set. -/
theorem buffer_request_flags (env : Env) :
    (main env).trace.filter (fun e => e.kind == Kind.createBuffer) =
      (if env.accelerationStructure = VK_TRUE ∧ env.rayQuery = VK_TRUE then
        [Event.createBuffer
          { flags := 0, size := bufferSizeBytes,
            usage := VK_BUFFER_USAGE_STORAGE_BUFFER_BIT ||| VK_BUFFER_USAGE_TRANSFER_DST_BIT,
            sharingMode := 0, queueFamilyIndexCount := 0 }
          (VK_MEMORY_PROPERTY_HOST_VISIBLE_BIT ||| VK_MEMORY_PROPERTY_HOST_CACHED_BIT |||
            VK_MEMORY_PROPERTY_HOST_COHERENT_BIT)
          env.createBufferResult env.buffer]
      else []) ∧
    (∀ i, Nat.testBit (VK_BUFFER_USAGE_STORAGE_BUFFER_BIT ||| VK_BUFFER_USAGE_TRANSFER_DST_BIT) i
        = true ↔
      (2 ^ i = VK_BUFFER_USAGE_STORAGE_BUFFER_BIT ∨ 2 ^ i = VK_BUFFER_USAGE_TRANSFER_DST_BIT)) ∧
    (∀ i, Nat.testBit (VK_MEMORY_PROPERTY_HOST_VISIBLE_BIT ||| VK_MEMORY_PROPERTY_HOST_CACHED_BIT
        ||| VK_MEMORY_PROPERTY_HOST_COHERENT_BIT) i = true ↔
      (2 ^ i = VK_MEMORY_PROPERTY_HOST_VISIBLE_BIT ∨ 2 ^ i = VK_MEMORY_PROPERTY_HOST_CACHED_BIT ∨
        2 ^ i = VK_MEMORY_PROPERTY_HOST_COHERENT_BIT)) := by
  refine ⟨?_, usage_bits, memory_property_bits⟩
  unfold main
  split_ifs <;> simp_all [Event.kind, bufferCreateInfo, bufferMemoryProperties]

/-- C10: the buffer size does not wrap in 64-bit unsigned arithmetic, it is the
mathematical product; every fill command of a run has offset 0 and a size that
are multiples of 4, its offset plus size equals the size the targeted buffer
was created with in the same run, so the range covers the buffer exactly. -/
theorem fill_range_well_formed (env : Env) :
    bufferSizeBytes = render_width * render_height * 3 * sizeofFloat ∧
    render_width * render_height * 3 * sizeofFloat < 2 ^ 64 ∧
    (∀ c b offset size data, Event.cmdFillBuffer c b offset size data ∈ (main env).trace →
      offset = 0 ∧ offset % 4 = 0 ∧ size % 4 = 0 ∧
      ∃ info memProps, Event.createBuffer info memProps VK_SUCCESS b ∈ (main env).trace ∧
        offset + size = info.size) := by
  refine ⟨by decide, by decide, ?_⟩
  intro c b offset size data hmem
  have hp := passes_of_fill env ⟨_, hmem, rfl⟩
  have hm := main_of_passes env hp
  obtain ⟨_, _, h3, _, _, _⟩ := hp
  rw [hm] at hmem ⊢
  simp [script] at hmem
  obtain ⟨_, hb, ho, hsz, _⟩ := hmem
  subst hb ho hsz
  refine ⟨rfl, rfl, by decide, bufferCreateInfo, bufferMemoryProperties, ?_, ?_⟩
  · simp [script, h3]
  · simp [bufferCreateInfo]

/-- Witness of C10 at a run in which every call succeeds. -/
theorem fill_range_well_formed_witness :
    (0 : Nat) = 0 ∧ 0 % 4 = 0 ∧ 5760000 % 4 = 0 ∧
      ∃ info memProps, Event.createBuffer info memProps VK_SUCCESS 11 ∈ (main okEnv).trace ∧
        0 + 5760000 = info.size :=
  (fill_range_well_formed okEnv).2.2 33 11 0 5760000 0x3F000000 (by decide)

end VkMiniPathTracer
